import Mathlib

/-!
Verification of `update.py` (NirSoft Scoop-bucket updater) against its
specification.  The Python script is shallowly embedded below: network
traffic is an explicit environment (`NetEnv`), the on-disk manifest store
and the URL CSV cache are explicit maps that are threaded through the
functions, and every Python function used by the claims (`probe_for_exe`,
`update_row`, `rewrite_json`, `do_padfile`, the pad-field extraction and
the manifest construction inside `do_padfile`, and `main`'s loop) has a
corresponding executable Lean definition.
-/

/-! ## String helpers (embedding Python primitives) -/

/-- Embeds Python `str.replace(old, new)`: replaces every non-overlapping
occurrence, scanning left to right.  The fuel argument is the length of the
remaining character list; each step consumes at least one character when
`old` is nonempty, so the initial fuel is always sufficient. -/
def replaceGo : Nat → List Char → List Char → List Char → List Char
  | 0, cs, _, _ => cs
  | _ + 1, [], _, _ => []
  | fuel + 1, c :: rest, old, new =>
    if (c :: rest).take old.length = old then
      new ++ replaceGo fuel ((c :: rest).drop old.length) old new
    else
      c :: replaceGo fuel rest old new

/-- Python `s.replace(old, new)` for nonempty `old` (the script only ever
replaces the nonempty patterns `"http:"` and `".zip"`). -/
def pyReplace (s old new : String) : String :=
  ⟨replaceGo s.data.length s.data old.data new.data⟩

/-- Embeds `os.path.basename` (POSIX): the part after the last `/`. -/
def basename (s : String) : String :=
  ⟨s.data.foldl (fun acc c => if c = '/' then [] else acc ++ [c]) []⟩

/-- Embeds `os.path.splitext(p)[0]`: drop the extension at the last dot,
provided some character before that dot is not itself a dot (so a leading
group of dots, as in `".bashrc"`, is not an extension). -/
def splitextName (p : String) : String :=
  let cs := p.data
  let suffixLen := (cs.reverse.takeWhile (fun c => c ≠ '.')).length
  if suffixLen = cs.length then p
  else
    let stem := cs.take (cs.length - suffixLen - 1)
    if stem.all (fun c => c = '.') then p else ⟨stem⟩

/-- The ASCII whitespace characters matched by the regex `\s` on this data. -/
def isWs (c : Char) : Bool :=
  c = ' ' || c = '\t' || c = '\n' || c = '\r' || c = '\x0b' || c = '\x0c'

/-- Worker for `collapseWs`; the flag records whether the previous character
was part of a whitespace run already emitted as a single space. -/
def collapseWsGo : List Char → Bool → List Char
  | [], _ => []
  | c :: cs, inRun =>
    if isWs c then
      if inRun then collapseWsGo cs true else ' ' :: collapseWsGo cs true
    else c :: collapseWsGo cs false

/-- Embeds `re.sub(r"\s+", " ", s)`: every maximal run of whitespace becomes
a single space. -/
def collapseWs (s : String) : String :=
  ⟨collapseWsGo s.data false⟩

/-- `suf` is a suffix of `s` (embeds Python `str.endswith`). -/
def strEndsWith (s suf : String) : Bool :=
  suf.data.reverse.isPrefixOf s.data.reverse

/-- Join a list of strings with a separator. -/
def joinSep (sep : String) : List String → String
  | [] => ""
  | [x] => x
  | x :: y :: xs => x ++ sep ++ joinSep sep (y :: xs)

/-- Lowercase hex digit for a nibble. -/
def hexDigit (n : Nat) : Char :=
  if n < 10 then Char.ofNat (48 + n) else Char.ofNat (87 + n % 16)

/-- Hex encoding of a byte list (embeds `codecs.encode(data, "hex")`). -/
def hexEncode (bs : List Nat) : String :=
  ⟨bs.foldr (fun b acc => hexDigit (b / 16 % 16) :: hexDigit (b % 16) :: acc) []⟩

/-! ## JSON values and serialization

`JVal` models exactly the value shapes the script produces or reads back
from manifests: JSON strings, arrays, objects (with insertion order, like
Python dicts) and `null` (Python `None`).  `dumps` follows
`json.dumps(x)`'s default layout (`", "` and `": "` separators);
`dumpsInd` follows `json.dump(x, fh, indent=4)`. -/

inductive JVal where
  | null : JVal
  | str : String → JVal
  | arr : List JVal → JVal
  | obj : List (String × JVal) → JVal

/-- JSON string escaping (quote, backslash and the common control chars;
the script's data contains no other characters needing escapes). -/
def jescape (s : String) : String :=
  ⟨s.data.foldr
    (fun c acc =>
      if c = '"' then '\\' :: '"' :: acc
      else if c = '\\' then '\\' :: '\\' :: acc
      else if c = '\n' then '\\' :: 'n' :: acc
      else if c = '\t' then '\\' :: 't' :: acc
      else if c = '\r' then '\\' :: 'r' :: acc
      else c :: acc) []⟩

/-- A quoted JSON string literal. -/
def qstr (s : String) : String := "\"" ++ jescape s ++ "\""

mutual

/-- Embeds `json.dumps(v)` with the default separators. -/
def dumps : JVal → String
  | .null => "null"
  | .str s => qstr s
  | .arr xs => "[" ++ joinSep ", " (dumpsList xs) ++ "]"
  | .obj kvs => "\x7b" ++ joinSep ", " (dumpsObj kvs) ++ "\x7d"

def dumpsList : List JVal → List String
  | [] => []
  | x :: xs => dumps x :: dumpsList xs

def dumpsObj : List (String × JVal) → List String
  | [] => []
  | (k, v) :: kvs => (qstr k ++ ": " ++ dumps v) :: dumpsObj kvs

end

/-- `4 * n` spaces of indentation. -/
def pad4 (n : Nat) : String := ⟨List.replicate (4 * n) ' '⟩

mutual

/-- Embeds `json.dump(v, fh, indent=4)`: the pretty-printed form the script
writes to manifest files. -/
def dumpsInd : JVal → Nat → String
  | .null, _ => "null"
  | .str s, _ => qstr s
  | .arr [], _ => "[]"
  | .arr (x :: xs), lvl =>
      "[\n" ++ joinSep ",\n" (dumpsIndList (x :: xs) (lvl + 1)) ++ "\n" ++ pad4 lvl ++ "]"
  | .obj [], _ => "\x7b\x7d"
  | .obj (kv :: kvs), lvl =>
      "\x7b\n" ++ joinSep ",\n" (dumpsIndObj (kv :: kvs) (lvl + 1)) ++ "\n" ++ pad4 lvl ++ "\x7d"

def dumpsIndList : List JVal → Nat → List String
  | [], _ => []
  | x :: xs, lvl => (pad4 lvl ++ dumpsInd x lvl) :: dumpsIndList xs lvl

def dumpsIndObj : List (String × JVal) → Nat → List String
  | [], _ => []
  | (k, v) :: kvs, lvl => (pad4 lvl ++ qstr k ++ ": " ++ dumpsInd v lvl) :: dumpsIndObj kvs lvl

end

/-! ## Python-dict operations on JSON objects

Python dicts preserve insertion order; assignment to an existing key keeps
its position, assignment to a fresh key appends, `pop` removes the key. -/

/-- Association-list lookup (embeds `d[k]` / `d.get(k)`). -/
def alookup {α : Type} : List (String × α) → String → Option α
  | [], _ => none
  | (k2, v) :: rest, k => if k2 = k then some v else alookup rest k

/-- Embeds `d.pop(k)`'s effect on the mapping (removes the key). -/
def objPop : List (String × JVal) → String → List (String × JVal)
  | [], _ => []
  | (k2, v) :: rest, k => if k2 = k then rest else (k2, v) :: objPop rest k

/-- Embeds `d[k] = v`: replace in place if present, else append. -/
def objSet : List (String × JVal) → String → JVal → List (String × JVal)
  | [], k, v => [(k, v)]
  | (k2, v2) :: rest, k, v =>
    if k2 = k then (k, v) :: rest else (k2, v2) :: objSet rest k v

/-- In-place update of the value at a key (a no-op if the key is absent;
every use in the script is guarded so the key is present). -/
def objModify : List (String × JVal) → String → (JVal → JVal) → List (String × JVal)
  | [], _, _ => []
  | (k2, v2) :: rest, k, f =>
    if k2 = k then (k2, f v2) :: rest else (k2, v2) :: objModify rest k f

/-- Embeds Python truthiness for the values the script tests. -/
def jTruthy : JVal → Bool
  | .null => false
  | .str s => !s.isEmpty
  | .arr xs => !xs.isEmpty
  | .obj kvs => !kvs.isEmpty

/-- Embeds `d.get(k, default)` on a JSON value that is expected to be an
object (`d.get` on a non-object raises in Python; all uses in the script
are reached only with object values). -/
def jGetD (v : JVal) (k : String) (d : JVal) : JVal :=
  match v with
  | .obj kvs => (alookup kvs k).getD d
  | _ => d

/-- Nested in-place update inside a JSON object value. -/
def jObjModify (v : JVal) (k : String) (f : JVal → JVal) : JVal :=
  match v with
  | .obj kvs => .obj (objModify kvs k f)
  | v => v

/-- Embeds `s += suf` on a string-valued entry. -/
def jAppendStr (suf : String) : JVal → JVal
  | .str s => .str (s ++ suf)
  | v => v

/-- Embeds `xs.append`-ing a batch of strings to an array-valued entry. -/
def jArrPushStrs (items : List String) : JVal → JVal
  | .arr xs => .arr (xs ++ items.map JVal.str)
  | v => v

/-- A key is present in a JSON object. -/
def hasKey (kvs : List (String × JVal)) (k : String) : Bool :=
  (alookup kvs k).isSome

/-! ## The URL state cache and the network environment

`UrlEntry` embeds one row of `cache/urls.csv` (fields `url, status,
last_modified, hash, exe`).  In the CSV every field is a string; `status`
holds a decimal HTTP status or is empty, and `last_modified` holds a
decimal epoch timestamp or is empty, so they are embedded as `Option Nat`
and `Option ℚ` with `none` standing for the empty string. -/

structure UrlEntry where
  url : String
  status : Option Nat
  last_modified : Option ℚ
  hash : String
  exe : String

/-- `dict.fromkeys(URLS_FIELDS, "")`: the zero-valued entry. -/
def emptyEntry : UrlEntry :=
  { url := "", status := none, last_modified := none, hash := "", exe := "" }

/-- The in-memory `urls` mapping (Python dict keyed by URL). -/
def Urls : Type := String → Option UrlEntry

/-- Dict assignment `urls[k] = v`. -/
def updUrls (m : Urls) (k : String) (v : UrlEntry) : Urls :=
  fun q => if q = k then some v else m q

/-- The network, as an oracle: for each URL the status code that
`requests.head` returns, the parsed `Last-Modified` timestamp
(`get_mtime`; the body fetch via `get` is modelled as always succeeding
once the HEAD probe succeeded), the body bytes, the behaviour of
`zipfile.ZipFile(...).namelist()` on given bytes (`none` embeds a
`BadZipFile` error), and the hex SHA-256 digest (`sha256sum`, a call into
`hashlib`). -/
structure NetEnv where
  headStatus : String → Nat
  mtime : String → ℚ
  body : String → List Nat
  parseZip : List Nat → Option (List String)
  sha256hex : List Nat → String

/-- `requests.Response.ok`: status below 400. -/
def reqOk (st : Nat) : Bool := st < 400

/-- The diagnostic printed for a `BadZipFile` (the script also prints a
best-effort UTF-8 decoding of the payload head; that second line's exact
text is summarised by the hex line here). -/
def badZipMsg (data : List Nat) : String :=
  "expected a .zips 504b magic signature, found " ++ hexEncode (data.take 2)

/-- Embeds `probe_for_exe` (src/update.py:101-114).  Returns the result
string together with the diagnostic lines printed.  The loop over
`namelist()` returning the first name ending in `".exe"` is `List.find?`;
a `BadZipFile` is caught, logged, and turned into `""`. -/
def probe_for_exe (parseZip : List Nat → Option (List String)) (data : List Nat) :
    String × List String :=
  match parseZip data with
  | some names => (((names.find? (fun n => strEndsWith n ".exe")).getD ""), [])
  | none => ("", [badZipMsg data])

/-- The diagnostic `update_row` prints on a failed probe (the HTTP reason
phrase is not modelled). -/
def cannotMsg (url : String) (st : Nat) : String :=
  "Cannot download " ++ url ++ ": " ++ Nat.repr st

/-- Result of `update_row`: the returned pair `(rv, row)` plus
instrumentation recording the HEAD probes issued, the body fetches
performed, and the lines printed. -/
structure RowResult where
  ok : Bool
  row : UrlEntry
  probes : List String
  fetches : List String
  log : List String

/-- Embeds `update_row` (src/update.py:124-157).  `c404` is the value of
`check_404s()`.  The sticky-404 gate returns `(False, row)` without any
network traffic; otherwise the HEAD status and the URL are recorded into
the row unconditionally; on failure a diagnostic is printed unless the
status is 404 and `report404s` is false; on success an empty stored
`last_modified` is first replaced by `"0"`, and the body is fetched and
`hash`/`exe`/`last_modified` recomputed exactly when the remote timestamp
is strictly greater than the stored value.  (The cache-file `utime`
bookkeeping at src/update.py:149-155 touches no row state and is not
modelled.) -/
def update_row (env : NetEnv) (c404 : Bool) (row : UrlEntry) (url : String)
    (report404s : Bool) : RowResult :=
  if row.status = some 404 ∧ c404 = false then
    { ok := false, row := row, probes := [], fetches := [], log := [] }
  else
    let st := env.headStatus url
    let row1 := { row with url := url, status := some st }
    if reqOk st = false then
      { ok := false, row := row1, probes := [url], fetches := [],
        log := if st ≠ 404 ∨ report404s = true then [cannotMsg url st] else [] }
    else
      let lm0 : ℚ := row1.last_modified.getD 0
      let row2 := { row1 with last_modified := some lm0 }
      if lm0 < env.mtime url then
        let data := env.body url
        let pe := probe_for_exe env.parseZip data
        { ok := true,
          row := { row2 with
                    last_modified := some (env.mtime url),
                    hash := env.sha256hex data,
                    exe := pe.1 },
          probes := [url], fetches := [url], log := pe.2 }
      else
        { ok := true, row := row2, probes := [url], fetches := [], log := [] }

/-! ## Pad-document field extraction

Embeds src/update.py:220-256.  An XML pad document is represented by the
five element paths the script reads.  For each path, the outer `Option`
is `none` when `find` fails to locate the element chain (the `except`
branch fires and the field keeps its default `""`); the inner
`Option String` is the located element's `.text`, which is `None` for an
empty element.  `str(None)` in Python is the string `"None"`. -/

structure PadDoc where
  program_version : Option (Option String)
  program_name : Option (Option String)
  application_info_url : Option (Option String)
  primary_download_url : Option (Option String)
  char_desc_80 : Option (Option String)

/-- Python `str` applied to an element's `.text`. -/
def pyStr : Option String → String
  | none => "None"
  | some s => s

/-- The five extracted fields.  `description` is `Option String` because
the script stores `descriptions.find("Char_Desc_80").text` without `str`,
so a present-but-empty element leaves Python `None` (JSON `null`) there. -/
structure PadFields where
  version : String
  full_name : String
  website : String
  download : String
  description : Option String

/-- `Application_Info_URL` text before scheme normalization. -/
def rawWebsite (doc : PadDoc) : String :=
  match doc.application_info_url with
  | none => ""
  | some t => pyStr t

/-- `Primary_Download_URL` text before scheme normalization. -/
def rawDownload (doc : PadDoc) : String :=
  match doc.primary_download_url with
  | none => ""
  | some t => pyStr t

/-- Embeds the field-extraction block of `do_padfile`
(src/update.py:220-256): each field is extracted in its own `try` scope
with default `""`, and the homepage and download URLs have every
occurrence of `"http:"` replaced by `"https:"`. -/
def parse_pad (doc : PadDoc) : PadFields :=
  { version := match doc.program_version with
      | none => ""
      | some t => pyStr t
  , full_name := match doc.program_name with
      | none => ""
      | some t => pyStr t
  , website := pyReplace (rawWebsite doc) "http:" "https:"
  , download := pyReplace (rawDownload doc) "http:" "https:"
  , description := match doc.char_desc_80 with
      | none => some ""
      | some t => t }

/-! ## Manifest construction

Embeds the manifest-building block of `do_padfile`
(src/update.py:294-349), including the password special cases. -/

/-- The `PASSWORDS` table (src/update.py:38-46). -/
def PASSWORDS : List (String × String) :=
  [ ("chromepass", "chpass9126*")
  , ("dialupass", "nsdlps3861@")
  , ("iepv", "iepv68861$")
  , ("netpass", "ntps5291#")
  , ("passwordfox", "nspsfx403!")
  , ("webbrowserpassview", "wbpv28821@")
  , ("wirelesskeyview", "WKey4567#") ]

/-- The `NOTES` constant (src/update.py:27). -/
def NOTES : String :=
  "If this application is useful to you, please consider donating to NirSoft - https://www.nirsoft.net/donate.html"

/-- First `pre_install` step: create `<name>.cfg` if absent
(src/update.py:333). -/
def preCfgStep (name : String) : String :=
  "if (-not (Test-Path \\\"$persist_dir\\\\" ++ name ++ ".cfg\\\")) \x7b New-Item \\\"$dir\\\\"
    ++ name ++ ".cfg\\\" -ItemType file | Out-Null \x7d"

/-- Second `pre_install` step: create `<name>_lng.ini` if absent
(src/update.py:334). -/
def preLngStep (name : String) : String :=
  "if (-not (Test-Path \\\"$persist_dir\\\\" ++ name ++ "_lng.ini\\\")) \x7b New-Item \\\"$dir\\\\"
    ++ name ++ "_lng.ini\\\" -ItemType file | Out-Null \x7d"

/-- Third `pre_install` step for password-protected archives
(src/update.py:348). -/
def zipStep (name : String) : String :=
  "$zip=(Get-ChildItem $dir\\\\" ++ name ++ "*).Name"

/-- Fourth `pre_install` step for password-protected archives: the `7z`
extraction referencing the password (src/update.py:349).  The apostrophes
of the Python source string are built explicitly. -/
def extractStep (password : String) : String :=
  let q := String.singleton (Char.ofNat 39)
  "7z x $dir\\\\$zip -p" ++ q ++ password ++ q ++ " $(" ++ q ++ "-o" ++ q
    ++ " + $dir) | Out-Null"

/-- The query-string marker appended to password-protected download URLs. -/
def dlMarker : String := "#dl.zip_"

/-- Embeds src/update.py:294-349: the manifest dict passed to
`rewrite_json`.  `x64` is the boolean returned by the 64-bit
`update_row` call; `password` is `PASSWORDS.get(name, '')` (passed in by
`do_padfile`).  Dict mutations follow Python insertion-order semantics
via `objPop`/`objSet`/`objModify`. -/
def build_manifest (f : PadFields) (name exe hash32 : String) (x64 : Bool)
    (download64 hash64 : String) (password : Option String) :
    List (String × JVal) :=
  let download := f.download
  let shortcut := "NirSoft\\" ++ f.full_name
  let base : List (String × JVal) :=
    [ ("version", .str f.version)
    , ("homepage", .str f.website)
    , ("url", .str download)
    , ("bin", .str exe)
    , ("shortcuts", .arr [.arr [.str exe, .str shortcut]])
    , ("persist", .arr [.str (name ++ "_lng.ini"), .str (name ++ ".cfg")])
    , ("hash", .str hash32)
    , ("architecture", .str "")
    , ("description", match f.description with
        | none => .null
        | some s => .str s)
    , ("license", .str "Freeware")
    , ("notes", .str NOTES)
    , ("checkver", .obj
        [ ("url", .str ("https://www.nirsoft.net/pad/" ++ name ++ ".xml"))
        , ("xpath", .str "/XML_DIZ_INFO/Program_Info/Program_Version") ])
    , ("autoupdate", .obj [("url", .str download)]) ]
  let m1 :=
    if x64 then
      objSet
        (objSet (objPop (objPop base "url") "hash")
          "autoupdate"
          (.obj [("architecture", .obj
            [ ("64bit", .obj [("url", .str download64)])
            , ("32bit", .obj [("url", .str download)]) ])]))
        "architecture"
        (.obj
          [ ("64bit", .obj [("url", .str download64), ("hash", .str hash64)])
          , ("32bit", .obj [("url", .str download), ("hash", .str hash32)]) ])
    else
      objSet (objSet (objPop base "architecture") "url" (.str download))
        "hash" (.str hash32)
  let m2 := objSet m1 "pre_install"
    (.arr [.str (preCfgStep name), .str (preLngStep name)])
  match password with
  | none => m2
  | some pw =>
    let arch := jGetD (.obj m2) "architecture" (.str "")
    let m3 :=
      if jTruthy arch then
        let m3a :=
          if jTruthy (jGetD arch "64bit" (.str "")) then
            objModify m2 "architecture"
              (fun a => jObjModify a "64bit" (fun b => jObjModify b "url" (jAppendStr dlMarker)))
          else m2
        if jTruthy (jGetD arch "32bit" (.str "")) then
          objModify m3a "architecture"
            (fun a => jObjModify a "32bit" (fun b => jObjModify b "url" (jAppendStr dlMarker)))
        else m3a
      else
        objModify m2 "url" (jAppendStr dlMarker)
    objModify m3 "pre_install" (jArrPushStrs [zipStep name, extractStep pw])

/-! ## The manifest store and the diff writer -/

/-- The manifest file store: path to (parsed JSON value, file text).  The
script only ever reads manifests back through `json.load`, so the store
keeps the parsed value alongside the exact text most recently written;
that the pretty-printed text parses back to the same value is the
`json.dump`/`json.load` round-trip contract of the standard library. -/
def FS : Type := String → Option (JVal × String)

/-- Embeds `rewrite_json` (src/update.py:356-372).  Returns the new store
and whether a filesystem write was performed.  When the file exists, both
records are serialized with `json.dumps` and every whitespace run is
collapsed before comparing; equality suppresses the write.  A write
stores the `indent=4` pretty-printed serialization. -/
def rewrite_json (fs : FS) (json_file : String) (manifest : JVal) : FS × Bool :=
  let write : FS × Bool :=
    (fun q => if q = json_file then some (manifest, dumpsInd manifest 0) else fs q, true)
  match fs json_file with
  | some (old, _) =>
    if collapseWs (dumps old) = collapseWs (dumps manifest) then (fs, false)
    else write
  | none => write

/-! ## `do_padfile` -/

/-- The primary download URL of a pad document (src/update.py:247,256). -/
def padDownload (doc : PadDoc) : String := (parse_pad doc).download

/-- The derived 64-bit variant URL (src/update.py:271). -/
def padDownload64 (doc : PadDoc) : String :=
  pyReplace (padDownload doc) ".zip" "-x64.zip"

/-- The `update_row` call on the primary URL (src/update.py:257-258),
starting from the cached entry or a zero-valued one. -/
def padR1 (env : NetEnv) (c404 : Bool) (doc : PadDoc) (urls : Urls) : RowResult :=
  update_row env c404 ((urls (padDownload doc)).getD emptyEntry) (padDownload doc) true

/-- The `update_row` call on the 64-bit URL with `report_404s=False`
(src/update.py:272-273), starting from the cache state after the primary
row was stored. -/
def padR2 (env : NetEnv) (c404 : Bool) (doc : PadDoc) (urls : Urls) : RowResult :=
  update_row env c404
    ((updUrls urls (padDownload doc) (padR1 env c404 doc urls).row (padDownload64 doc)).getD emptyEntry)
    (padDownload64 doc) false

/-- The manifest path derived from the pad file name (src/update.py:277-278). -/
def padJsonFile (pad_name : String) : String :=
  "bucket/" ++ splitextName (basename pad_name) ++ ".json"

/-- `manifest.get("architecture", {}).get("64bit", {}).get("url", "")`
(src/update.py:284-286) on a previously written manifest. -/
def manifestUrl64 (m : JVal) : String :=
  match jGetD (jGetD m "architecture" (.obj [])) "64bit" (.obj []) with
  | .obj bit64 =>
    match (alookup bit64 "url").getD (.str "") with
    | .str s => s
    | _ => ""
  | _ => ""

/-- src/update.py:268. -/
def noExeMsg (download : String) : String :=
  "No executable found in " ++ download ++ ", skipping"

/-- src/update.py:289. -/
def skipMsg (json_file url64 download64 : String) : String :=
  json_file ++ " has " ++ url64 ++ " but cannot access " ++ download64 ++ ", skipping"

/-- src/update.py:369. -/
def writingMsg (json_file : String) : String := "Writing " ++ json_file

/-- The outcome of one `do_padfile` call: the updated `urls` mapping, the
manifest store, the HEAD probes issued, the lines printed, whether a
manifest file write happened, and the manifest record passed to the
writer (when one was). -/
structure PadResult where
  urls : Urls
  fs : FS
  probes : List String
  log : List String
  wrote : Bool
  built : Option JVal

/-- Embeds `do_padfile` (src/update.py:217-353).  Because `row` aliases
the dict stored in `urls` whenever the key was already present, the
in-place mutations that `update_row` performs are visible in `urls` even
on the early-failure returns; together with the explicit
`urls[download] = row` inserts for fresh keys (src/update.py:259-260,
274-275) this amounts to unconditionally storing the returned row under
its URL, which is how the aliasing is embedded here. -/
def do_padfile (env : NetEnv) (c404 : Bool) (pad_name : String) (doc : PadDoc)
    (urls : Urls) (fs : FS) : PadResult :=
  let download := padDownload doc
  let r1 := padR1 env c404 doc urls
  let urls1 := updUrls urls download r1.row
  if r1.ok = false then
    -- "don't update urls on temporary 404s": return before urls[download] = row
    { urls := urls1, fs := fs, probes := r1.probes, log := r1.log,
      wrote := false, built := none }
  else if r1.row.exe = "" then
    { urls := urls1, fs := fs, probes := r1.probes,
      log := r1.log ++ [noExeMsg download], wrote := false, built := none }
  else
    let download64 := padDownload64 doc
    let r2 := padR2 env c404 doc urls
    let urls2 := updUrls urls1 download64 r2.row
    let name := splitextName (basename pad_name)
    let json_file := padJsonFile pad_name
    let proceed : PadResult :=
      let manifest := JVal.obj
        (build_manifest (parse_pad doc) name r1.row.exe r1.row.hash r2.ok
          download64 r2.row.hash (alookup PASSWORDS name))
      let w := rewrite_json fs json_file manifest
      { urls := urls2, fs := w.1, probes := r1.probes ++ r2.probes,
        log := r1.log ++ r2.log ++ (if w.2 then [writingMsg json_file] else []),
        wrote := w.2, built := some manifest }
    match fs json_file with
    | some (mOld, _) =>
      if r2.ok = false ∧ manifestUrl64 mOld ≠ "" then
        -- don't update urls on temporary 404s: skip the whole manifest write
        { urls := urls2, fs := fs, probes := r1.probes ++ r2.probes,
          log := r1.log ++ r2.log ++ [skipMsg json_file (manifestUrl64 mOld) download64],
          wrote := false, built := none }
      else proceed
    | none => proceed

/-- Embeds `main`'s loop over the pad archive entries together with the
final write-back (src/update.py:183-208): each pad is processed in turn
against the shared `urls` mapping and manifest store, and the resulting
mapping is what the final `csv.DictWriter` loop persists row by row.
Returns the final mapping, the final store, and all HEAD probes issued
during the run. -/
def run_pads (env : NetEnv) (c404 : Bool) :
    List (String × PadDoc) → Urls → FS → Urls × FS × List String
  | [], urls, fs => (urls, fs, [])
  | (pad_name, doc) :: rest, urls, fs =>
    let r := do_padfile env c404 pad_name doc urls fs
    let rec_rest := run_pads env c404 rest r.urls r.fs
    (rec_rest.1, rec_rest.2.1, r.probes ++ rec_rest.2.2)

/-! ## Path lemmas for `update_row` -/

/-- Sticky-404 gate: previously recorded 404 and no recheck requested
means an immediate `(False, row)` with no traffic and no output. -/
theorem update_row_sticky (env : NetEnv) (c404 : Bool) (row : UrlEntry) (url : String)
    (rep : Bool) (h1 : row.status = some 404) (h2 : c404 = false) :
    update_row env c404 row url rep =
      { ok := false, row := row, probes := [], fetches := [], log := [] } := by
  simp [update_row, h1, h2]

/-- Failed probe: the URL and status are recorded, nothing else changes,
and the diagnostic is printed unless a suppressed 404. -/
theorem update_row_probe_fail (env : NetEnv) (c404 : Bool) (row : UrlEntry) (url : String)
    (rep : Bool) (hns : ¬(row.status = some 404 ∧ c404 = false))
    (hst : reqOk (env.headStatus url) = false) :
    update_row env c404 row url rep =
      { ok := false,
        row := { row with url := url, status := some (env.headStatus url) },
        probes := [url], fetches := [],
        log := if env.headStatus url ≠ 404 ∨ rep = true
               then [cannotMsg url (env.headStatus url)] else [] } := by
  simp [update_row, hns, hst]

/-- Successful probe with a strictly newer remote timestamp: full body
fetch, digest and archive probe recomputed, timestamp advanced. -/
theorem update_row_refetch (env : NetEnv) (c404 : Bool) (row : UrlEntry) (url : String)
    (rep : Bool) (hns : ¬(row.status = some 404 ∧ c404 = false))
    (hst : reqOk (env.headStatus url) = true)
    (hlt : row.last_modified.getD 0 < env.mtime url) :
    update_row env c404 row url rep =
      { ok := true,
        row := { url := url, status := some (env.headStatus url),
                 last_modified := some (env.mtime url),
                 hash := env.sha256hex (env.body url),
                 exe := (probe_for_exe env.parseZip (env.body url)).1 },
        probes := [url], fetches := [url],
        log := (probe_for_exe env.parseZip (env.body url)).2 } := by
  simp [update_row, hns, hst, hlt]

/-- Successful probe with no newer timestamp: no fetch, `hash`/`exe`
untouched, an empty stored timestamp normalized to `0`. -/
theorem update_row_fresh (env : NetEnv) (c404 : Bool) (row : UrlEntry) (url : String)
    (rep : Bool) (hns : ¬(row.status = some 404 ∧ c404 = false))
    (hst : reqOk (env.headStatus url) = true)
    (hge : ¬ row.last_modified.getD 0 < env.mtime url) :
    update_row env c404 row url rep =
      { ok := true,
        row := { url := url, status := some (env.headStatus url),
                 last_modified := some (row.last_modified.getD 0),
                 hash := row.hash, exe := row.exe },
        probes := [url], fetches := [], log := [] } := by
  simp [update_row, hns, hst, hge]

/-! ## Claim C6: the archive probe -/

/-- `List.find?` returns the first element satisfying the predicate. -/
theorem find?_first {α : Type} (p : α → Bool) (l : List α) :
    (∀ x, l.find? p = some x →
      ∃ l1 l2, l = l1 ++ x :: l2 ∧ p x = true ∧ ∀ y ∈ l1, p y = false)
    ∧ (l.find? p = none → ∀ y ∈ l, p y = false) := by
  induction l with
  | nil => simp
  | cons a as ih =>
    constructor
    · intro x hx
      by_cases hpa : p a = true
      · rw [List.find?_cons_of_pos _ hpa] at hx
        obtain rfl : a = x := by injection hx
        exact ⟨[], as, rfl, hpa, by simp⟩
      · rw [List.find?_cons_of_neg _ hpa] at hx
        obtain ⟨l1, l2, hsplit, hpx, hnone⟩ := ih.1 x hx
        refine ⟨a :: l1, l2, by simp [hsplit], hpx, ?_⟩
        intro y hy
        rcases List.mem_cons.mp hy with h | h
        · exact h ▸ Bool.eq_false_iff.mpr hpa
        · exact hnone y h
    · intro hx y hy
      rcases List.mem_cons.mp hy with h | h
      · subst h
        by_cases hpa : p y = true
        · rw [List.find?_cons_of_pos _ hpa] at hx; cases hx
        · exact Bool.eq_false_iff.mpr hpa
      · rw [List.find?_cons_of_neg] at hx
        · exact ih.2 hx y h
        · intro hpa
          rw [List.find?_cons_of_pos _ hpa] at hx; cases hx
      
/-- C6: for every byte sequence, `probe_for_exe` returns the first archive
entry (in directory order) ending in `".exe"` when the bytes parse as an
archive containing one; the empty string (and no diagnostic) when a valid
archive contains none; and on unparsable bytes it returns the empty
string after logging a diagnostic — it is a total function, so no
exception escapes its boundary. -/
theorem probe_for_exe_boundary (zp : List Nat → Option (List String)) (data : List Nat) :
    (∀ names, zp data = some names →
      ((∃ l1 l2, names = l1 ++ (probe_for_exe zp data).1 :: l2
          ∧ strEndsWith (probe_for_exe zp data).1 ".exe" = true
          ∧ ∀ y ∈ l1, strEndsWith y ".exe" = false)
        ∨ ((probe_for_exe zp data).1 = ""
          ∧ ∀ y ∈ names, strEndsWith y ".exe" = false))
      ∧ (probe_for_exe zp data).2 = [])
    ∧ (zp data = none →
      (probe_for_exe zp data).1 = "" ∧ (probe_for_exe zp data).2 = [badZipMsg data]) := by
  constructor
  · intro names h
    rcases hf : names.find? (fun n => strEndsWith n ".exe") with _ | x
    · exact ⟨Or.inr ⟨by simp [probe_for_exe, h, hf],
        (find?_first (fun n => strEndsWith n ".exe") names).2 hf⟩,
        by simp [probe_for_exe, h]⟩
    · obtain ⟨l1, l2, hsplit, hpx, hnone⟩ :=
        (find?_first (fun n => strEndsWith n ".exe") names).1 x hf
      exact ⟨Or.inl ⟨l1, l2, by simpa [probe_for_exe, h, hf] using hsplit,
        by simpa [probe_for_exe, h, hf] using hpx, hnone⟩,
        by simp [probe_for_exe, h]⟩
  · intro h
    simp [probe_for_exe, h]

/-- C6 witness: a bad archive (HTML bytes) yields `""` plus a diagnostic;
a valid archive listing yields its first `.exe` entry. -/
theorem probe_for_exe_boundary_witness :
    (fun _ : List Nat => (none : Option (List String))) [60, 104] = none
    ∧ (probe_for_exe (fun _ => none) [60, 104]).1 = ""
    ∧ (probe_for_exe (fun _ => none) [60, 104]).2 = [badZipMsg [60, 104]]
    ∧ (probe_for_exe (fun _ => some ["readme.txt", "tool.exe", "lib.dll"]) []).1 = "tool.exe" := by
  have h := (probe_for_exe_boundary (fun _ => none) [60, 104]).2 rfl
  exact ⟨rfl, h.1, h.2, rfl⟩

/-! ## Claim C5: `update_row` error paths -/

/-- C5: with a recorded 404 and the recheck flag off, `update_row` returns
`(False, row)` with no network probe at all; and when the metadata probe
does not succeed it returns `(False, row)` after recording the observed
URL and status, printing a diagnostic unless the status is 404 and
`report_404s` is false. -/
theorem update_row_error_handling (env : NetEnv) (c404 : Bool) (row : UrlEntry)
    (url : String) (rep : Bool) :
    (row.status = some 404 → c404 = false →
      update_row env c404 row url rep =
        { ok := false, row := row, probes := [], fetches := [], log := [] })
    ∧ (¬(row.status = some 404 ∧ c404 = false) →
      reqOk (env.headStatus url) = false →
      update_row env c404 row url rep =
        { ok := false,
          row := { row with url := url, status := some (env.headStatus url) },
          probes := [url], fetches := [],
          log := if env.headStatus url ≠ 404 ∨ rep = true
                 then [cannotMsg url (env.headStatus url)] else [] }) :=
  ⟨fun h1 h2 => update_row_sticky env c404 row url rep h1 h2,
   fun hns hst => update_row_probe_fail env c404 row url rep hns hst⟩

/-- C5 witness: a sticky 404 issues no probe; a 500 on a fresh entry is
reported with its diagnostic. -/
theorem update_row_error_handling_witness :
    (update_row
        { headStatus := fun _ => 500, mtime := fun _ => 0, body := fun _ => [],
          parseZip := fun _ => none, sha256hex := fun _ => "" }
        false { emptyEntry with status := some 404 } "https://x.test/a.zip" true =
      { ok := false, row := { emptyEntry with status := some 404 },
        probes := [], fetches := [], log := [] })
    ∧ (update_row
        { headStatus := fun _ => 500, mtime := fun _ => 0, body := fun _ => [],
          parseZip := fun _ => none, sha256hex := fun _ => "" }
        false emptyEntry "https://x.test/a.zip" true =
      { ok := false,
        row := { emptyEntry with url := "https://x.test/a.zip", status := some 500 },
        probes := ["https://x.test/a.zip"], fetches := [],
        log := [cannotMsg "https://x.test/a.zip" 500] }) := by
  constructor
  · exact (update_row_error_handling _ false _ "https://x.test/a.zip" true).1 rfl rfl
  · have h := (update_row_error_handling
      { headStatus := fun _ => 500, mtime := fun _ => 0, body := fun _ => [],
        parseZip := fun _ => none, sha256hex := fun _ => "" }
      false emptyEntry "https://x.test/a.zip" true).2 (by simp [emptyEntry]) rfl
    simpa using h

/-! ## Claim C1: the freshness contract of `update_row` -/

/-- C1 counterexample: the claim treats an empty stored `last_modified`
as negative infinity, so a successful probe observing remote timestamp
`0` would have to refetch and recompute `hash`/`exe`.  The code instead
substitutes the string `"0"` for an empty value and compares with `>`,
so at remote timestamp `0` no body fetch happens and the stored hash
survives unchanged. -/
theorem update_row_empty_is_zero_cex :
    ({ url := "", status := none, last_modified := none,
       hash := "oldhash", exe := "" } : UrlEntry).last_modified = none
    ∧ (update_row
        { headStatus := fun _ => 200, mtime := fun _ => 0, body := fun _ => [],
          parseZip := fun _ => none, sha256hex := fun _ => "freshhash" }
        false
        { url := "", status := none, last_modified := none, hash := "oldhash", exe := "" }
        "https://www.nirsoft.net/utils/x.zip" true).ok = true
    ∧ (update_row
        { headStatus := fun _ => 200, mtime := fun _ => 0, body := fun _ => [],
          parseZip := fun _ => none, sha256hex := fun _ => "freshhash" }
        false
        { url := "", status := none, last_modified := none, hash := "oldhash", exe := "" }
        "https://www.nirsoft.net/utils/x.zip" true).fetches = []
    ∧ (update_row
        { headStatus := fun _ => 200, mtime := fun _ => 0, body := fun _ => [],
          parseZip := fun _ => none, sha256hex := fun _ => "freshhash" }
        false
        { url := "", status := none, last_modified := none, hash := "oldhash", exe := "" }
        "https://www.nirsoft.net/utils/x.zip" true).row.hash = "oldhash" :=
  ⟨rfl, rfl, rfl, rfl⟩

/-- C1 (amended): on a `update_row` call whose freshness probe succeeds,
`hash` and `exe` are recomputed (via a body fetch, digest, and archive
probe) if and only if the remote timestamp is strictly greater than the
stored `last_modified`, an empty stored value being treated as zero; and
the numeric value of the stored `last_modified` (empty reading as zero)
never decreases across a call, so it never decreases across successive
calls either. -/
theorem update_row_freshness_contract (env : NetEnv) (c404 : Bool) (row : UrlEntry)
    (url : String) (rep : Bool) :
    row.last_modified.getD 0 ≤ (update_row env c404 row url rep).row.last_modified.getD 0
    ∧ ((update_row env c404 row url rep).ok = true →
        ((update_row env c404 row url rep).fetches ≠ [] ↔
          row.last_modified.getD 0 < env.mtime url)
        ∧ (row.last_modified.getD 0 < env.mtime url →
            (update_row env c404 row url rep).row.hash = env.sha256hex (env.body url)
            ∧ (update_row env c404 row url rep).row.exe
                = (probe_for_exe env.parseZip (env.body url)).1
            ∧ (update_row env c404 row url rep).row.last_modified = some (env.mtime url))
        ∧ (¬ row.last_modified.getD 0 < env.mtime url →
            (update_row env c404 row url rep).row.hash = row.hash
            ∧ (update_row env c404 row url rep).row.exe = row.exe
            ∧ (update_row env c404 row url rep).row.last_modified
                = some (row.last_modified.getD 0))) := by
  by_cases hns : row.status = some 404 ∧ c404 = false
  · rw [update_row_sticky env c404 row url rep hns.1 hns.2]
    exact ⟨le_refl _, by intro h; cases h⟩
  · by_cases hst : reqOk (env.headStatus url) = true
    · by_cases hlt : row.last_modified.getD 0 < env.mtime url
      · rw [update_row_refetch env c404 row url rep hns hst hlt]
        refine ⟨le_of_lt (by simpa using hlt), fun _ => ⟨?_, ?_, ?_⟩⟩
        · simp [hlt]
        · exact fun _ => ⟨rfl, rfl, rfl⟩
        · exact fun h => absurd hlt h
      · rw [update_row_fresh env c404 row url rep hns hst hlt]
        refine ⟨by simp, fun _ => ⟨?_, ?_, ?_⟩⟩
        · simp [hlt]
        · exact fun h => absurd h hlt
        · exact fun _ => ⟨rfl, rfl, rfl⟩
    · rw [update_row_probe_fail env c404 row url rep hns
        (Bool.eq_false_iff.mpr hst)]
      exact ⟨le_refl _, by intro h; cases h⟩

/-- C1 witness: a fresh entry probed successfully at remote timestamp 5
does refetch, recomputes the digest, and advances `last_modified`. -/
theorem update_row_freshness_contract_witness :
    (update_row
        { headStatus := fun _ => 200, mtime := fun _ => 5, body := fun _ => [7],
          parseZip := fun _ => some ["tool.exe"], sha256hex := fun _ => "h1" }
        false emptyEntry "https://x.test/a.zip" true).ok = true
    ∧ ((update_row
        { headStatus := fun _ => 200, mtime := fun _ => 5, body := fun _ => [7],
          parseZip := fun _ => some ["tool.exe"], sha256hex := fun _ => "h1" }
        false emptyEntry "https://x.test/a.zip" true).fetches ≠ [] ↔
        emptyEntry.last_modified.getD 0 < (5 : ℚ))
    ∧ (update_row
        { headStatus := fun _ => 200, mtime := fun _ => 5, body := fun _ => [7],
          parseZip := fun _ => some ["tool.exe"], sha256hex := fun _ => "h1" }
        false emptyEntry "https://x.test/a.zip" true).row.hash = "h1" := by
  have h := update_row_freshness_contract
    { headStatus := fun _ => 200, mtime := fun _ => 5, body := fun _ => [7],
      parseZip := fun _ => some ["tool.exe"], sha256hex := fun _ => "h1" }
    false emptyEntry "https://x.test/a.zip" true
  exact ⟨rfl, (h.2 rfl).1, ((h.2 rfl).2.1 (by norm_num [emptyEntry])).1⟩

/-! ## Claim C3: the manifest diff writer -/

/-- C3: `rewrite_json` writes when no file exists at the path; with an
existing file it serializes both records, collapses all whitespace runs,
suppresses the filesystem write on equality (store unchanged) and
overwrites with the `indent=4` pretty serialization on difference; hence
a second call in succession with the same record performs no write. -/
theorem rewrite_json_contract (fs : FS) (p : String) (m : JVal) :
    (fs p = none →
      (rewrite_json fs p m).2 = true
      ∧ (rewrite_json fs p m).1 p = some (m, dumpsInd m 0))
    ∧ (∀ old txt, fs p = some (old, txt) →
        collapseWs (dumps old) = collapseWs (dumps m) →
        rewrite_json fs p m = (fs, false))
    ∧ (∀ old txt, fs p = some (old, txt) →
        collapseWs (dumps old) ≠ collapseWs (dumps m) →
        (rewrite_json fs p m).2 = true
        ∧ (rewrite_json fs p m).1 p = some (m, dumpsInd m 0))
    ∧ (rewrite_json (rewrite_json fs p m).1 p m).2 = false := by
  refine ⟨?_, ?_, ?_, ?_⟩
  · intro h
    simp [rewrite_json, h]
  · intro old txt h heq
    simp [rewrite_json, h, heq]
  · intro old txt h hne
    simp [rewrite_json, h, hne]
  · rcases hfp : fs p with _ | ⟨old, txt⟩
    · simp [rewrite_json, hfp]
    · by_cases heq : collapseWs (dumps old) = collapseWs (dumps m)
      · simp [rewrite_json, hfp, heq]
      · simp [rewrite_json, hfp, heq]

/-- C3 witness: on an empty store the first call writes and the second
call with the same record performs no write. -/
theorem rewrite_json_contract_witness :
    (fun _ : String => (none : Option (JVal × String))) "bucket/x.json" = none
    ∧ (rewrite_json (fun _ => none) "bucket/x.json" JVal.null).2 = true
    ∧ (rewrite_json (rewrite_json (fun _ => none) "bucket/x.json" JVal.null).1
        "bucket/x.json" JVal.null).2 = false := by
  have h := rewrite_json_contract (fun _ => none) "bucket/x.json" JVal.null
  exact ⟨rfl, (h.1 rfl).1, h.2.2.2⟩

/-! ## Claim C8: independent, fault-tolerant field extraction -/

/-- C8: each pad field is extracted independently — its value depends
only on its own element path, and a missing element chain (the `except`
branch) yields the empty-string default without disturbing any other
field — and the homepage and primary download URLs always have `http:`
rewritten to `https:`. -/
theorem parse_pad_fault_tolerance (doc : PadDoc) :
    ((parse_pad doc).website = pyReplace (rawWebsite doc) "http:" "https:")
    ∧ ((parse_pad doc).download = pyReplace (rawDownload doc) "http:" "https:")
    ∧ (doc.program_version = none → (parse_pad doc).version = "")
    ∧ (doc.program_name = none → (parse_pad doc).full_name = "")
    ∧ (doc.application_info_url = none → (parse_pad doc).website = "")
    ∧ (doc.primary_download_url = none → (parse_pad doc).download = "")
    ∧ (doc.char_desc_80 = none → (parse_pad doc).description = some "")
    ∧ (∀ d2 : PadDoc, d2.program_version = doc.program_version →
        (parse_pad d2).version = (parse_pad doc).version)
    ∧ (∀ d2 : PadDoc, d2.program_name = doc.program_name →
        (parse_pad d2).full_name = (parse_pad doc).full_name)
    ∧ (∀ d2 : PadDoc, d2.application_info_url = doc.application_info_url →
        (parse_pad d2).website = (parse_pad doc).website)
    ∧ (∀ d2 : PadDoc, d2.primary_download_url = doc.primary_download_url →
        (parse_pad d2).download = (parse_pad doc).download)
    ∧ (∀ d2 : PadDoc, d2.char_desc_80 = doc.char_desc_80 →
        (parse_pad d2).description = (parse_pad doc).description) := by
  refine ⟨rfl, rfl, ?_, ?_, ?_, ?_, ?_, ?_, ?_, ?_, ?_, ?_⟩
  · intro h; simp [parse_pad, h]
  · intro h; simp [parse_pad, h]
  · intro h
    simp only [parse_pad, rawWebsite, h]
    rfl
  · intro h
    simp only [parse_pad, rawDownload, h]
    rfl
  · intro h; simp [parse_pad, h]
  · intro d2 h; simp [parse_pad, h]
  · intro d2 h; simp [parse_pad, h]
  · intro d2 h; simp [parse_pad, rawWebsite, h]
  · intro d2 h; simp [parse_pad, rawDownload, h]
  · intro d2 h; simp [parse_pad, h]

/-- C8 witness: a pad document with every element chain missing parses to
all-default fields, and normalization applies to a present `http:` URL. -/
theorem parse_pad_fault_tolerance_witness :
    (parse_pad
      { program_version := none, program_name := none, application_info_url := none,
        primary_download_url := none, char_desc_80 := none }).version = ""
    ∧ (parse_pad
      { program_version := none, program_name := none, application_info_url := none,
        primary_download_url := none, char_desc_80 := none }).download = ""
    ∧ (parse_pad
      { program_version := none, program_name := none, application_info_url := none,
        primary_download_url := some (some "http://www.nirsoft.net/utils/x.zip"),
        char_desc_80 := none }).download = "https://www.nirsoft.net/utils/x.zip" := by
  have h1 := parse_pad_fault_tolerance
    { program_version := none, program_name := none, application_info_url := none,
      primary_download_url := none, char_desc_80 := none }
  have h2 := parse_pad_fault_tolerance
    { program_version := none, program_name := none, application_info_url := none,
      primary_download_url := some (some "http://www.nirsoft.net/utils/x.zip"),
      char_desc_80 := none }
  refine ⟨h1.2.2.1 rfl, h1.2.2.2.2.2.1 rfl, ?_⟩
  rw [h2.2.1]
  rfl

/-! ## Claim C4: the manifest shape invariant -/

/-- Lookup inside a JSON object value. -/
def jLookup (v : JVal) (k : String) : Option JVal :=
  match v with
  | .obj kvs => alookup kvs k
  | _ => none

/-- Key presence inside a JSON object value. -/
def jHasKey (v : JVal) (k : String) : Bool := (jLookup v k).isSome

/-- Shape of `build_manifest`'s output: the dual-architecture branch pops
`url`/`hash` and installs the two-entry `architecture` map; the
single-architecture branch pops `architecture` and keeps `url`/`hash`;
the password block only rewrites URL strings and appends `pre_install`
steps, never changing which of the two shapes is present. -/
theorem build_manifest_shape (f : PadFields) (name exe hash32 : String) (x64 : Bool)
    (download64 hash64 : String) (password : Option String) :
    (jHasKey (JVal.obj (build_manifest f name exe hash32 x64 download64 hash64 password))
        "url" = !x64
     ∧ jHasKey (JVal.obj (build_manifest f name exe hash32 x64 download64 hash64 password))
        "hash" = !x64
     ∧ jHasKey (JVal.obj (build_manifest f name exe hash32 x64 download64 hash64 password))
        "architecture" = x64)
    ∧ (x64 = true →
        ∃ u64 u32, jLookup
            (JVal.obj (build_manifest f name exe hash32 x64 download64 hash64 password))
            "architecture"
          = some (JVal.obj
              [ ("64bit", .obj [("url", .str u64), ("hash", .str hash64)])
              , ("32bit", .obj [("url", .str u32), ("hash", .str hash32)]) ]))
    ∧ (x64 = false →
        ∃ u, jLookup
            (JVal.obj (build_manifest f name exe hash32 x64 download64 hash64 password))
            "url" = some (.str u)
          ∧ jLookup
            (JVal.obj (build_manifest f name exe hash32 x64 download64 hash64 password))
            "hash" = some (.str hash32)) := by
  cases x64
  · cases password
    · refine ⟨⟨rfl, rfl, rfl⟩, ?_, ?_⟩
      · intro h
        exact nomatch h
      · intro h2
        exact ⟨f.download, rfl, rfl⟩
    · refine ⟨⟨rfl, rfl, rfl⟩, ?_, ?_⟩
      · intro h
        exact nomatch h
      · intro h2
        exact ⟨f.download ++ dlMarker, rfl, rfl⟩
  · cases password
    · refine ⟨⟨rfl, rfl, rfl⟩, ?_, ?_⟩
      · intro h2
        exact ⟨download64, f.download, rfl⟩
      · intro h
        exact nomatch h
    · refine ⟨⟨rfl, rfl, rfl⟩, ?_, ?_⟩
      · intro h2
        exact ⟨download64 ++ dlMarker, f.download ++ dlMarker, rfl⟩
      · intro h
        exact nomatch h

/-- C4: every manifest record `do_padfile` passes to the writer contains
exactly one of the top-level `url`+`hash` pair or the `architecture` map
keyed `"64bit"`/`"32bit"` with each entry holding its own `url` and
`hash` — never both, never neither — and the dual shape is chosen
exactly when the 64-bit variant check succeeded. -/
theorem do_padfile_shape_invariant (env : NetEnv) (c404 : Bool) (pad_name : String)
    (doc : PadDoc) (urls : Urls) (fs : FS) (mv : JVal)
    (hb : (do_padfile env c404 pad_name doc urls fs).built = some mv) :
    (jHasKey mv "url" = !(padR2 env c404 doc urls).ok
     ∧ jHasKey mv "hash" = !(padR2 env c404 doc urls).ok
     ∧ jHasKey mv "architecture" = (padR2 env c404 doc urls).ok)
    ∧ ((padR2 env c404 doc urls).ok = true →
        ∃ u64 u32, jLookup mv "architecture" = some (JVal.obj
          [ ("64bit", .obj [("url", .str u64),
              ("hash", .str (padR2 env c404 doc urls).row.hash)])
          , ("32bit", .obj [("url", .str u32),
              ("hash", .str (padR1 env c404 doc urls).row.hash)]) ]))
    ∧ ((padR2 env c404 doc urls).ok = false →
        ∃ u, jLookup mv "url" = some (.str u)
          ∧ jLookup mv "hash" = some (.str (padR1 env c404 doc urls).row.hash)) := by
  have hshape := build_manifest_shape (parse_pad doc) (splitextName (basename pad_name))
    (padR1 env c404 doc urls).row.exe (padR1 env c404 doc urls).row.hash
    (padR2 env c404 doc urls).ok (padDownload64 doc) (padR2 env c404 doc urls).row.hash
    (alookup PASSWORDS (splitextName (basename pad_name)))
  simp only [do_padfile] at hb
  split at hb
  · simp at hb
  · split at hb
    · simp at hb
    · split at hb
      · split at hb
        · simp at hb
        · have hmv : JVal.obj (build_manifest (parse_pad doc)
              (splitextName (basename pad_name)) (padR1 env c404 doc urls).row.exe
              (padR1 env c404 doc urls).row.hash (padR2 env c404 doc urls).ok
              (padDownload64 doc) (padR2 env c404 doc urls).row.hash
              (alookup PASSWORDS (splitextName (basename pad_name)))) = mv := by
            simpa using hb
          subst hmv
          exact hshape
      · have hmv : JVal.obj (build_manifest (parse_pad doc)
            (splitextName (basename pad_name)) (padR1 env c404 doc urls).row.exe
            (padR1 env c404 doc urls).row.hash (padR2 env c404 doc urls).ok
            (padDownload64 doc) (padR2 env c404 doc urls).row.hash
            (alookup PASSWORDS (splitextName (basename pad_name)))) = mv := by
          simpa using hb
        subst hmv
        exact hshape

/-- Concrete environment for the C4 witness: both URLs respond 200 with a
fresh timestamp; the downloaded archive contains `tool.exe`. -/
def envC4 : NetEnv :=
  { headStatus := fun _ => 200, mtime := fun _ => 1, body := fun _ => [1],
    parseZip := fun _ => some ["tool.exe"], sha256hex := fun _ => "H" }

/-- Concrete pad document for the C4 witness. -/
def docC4 : PadDoc :=
  { program_version := some (some "1.00"), program_name := some (some "Tool"),
    application_info_url := some (some "http://www.nirsoft.net/utils/tool.html"),
    primary_download_url := some (some "http://www.nirsoft.net/utils/tool.zip"),
    char_desc_80 := some (some "A tool") }

/-- The manifest value the C4 witness run passes to the writer. -/
def builtC4 : JVal :=
  ((do_padfile envC4 false "tool.xml" docC4 (fun _ => none) (fun _ => none)).built).getD
    JVal.null

/-- C4 witness: in a concrete dual-architecture run the built manifest
has the `architecture` map and no top-level `url`/`hash`. -/
theorem do_padfile_shape_invariant_witness :
    jHasKey builtC4 "url" = !(padR2 envC4 false docC4 (fun _ => none)).ok
    ∧ jHasKey builtC4 "hash" = !(padR2 envC4 false docC4 (fun _ => none)).ok
    ∧ jHasKey builtC4 "architecture" = (padR2 envC4 false docC4 (fun _ => none)).ok :=
  (do_padfile_shape_invariant envC4 false "tool.xml" docC4 (fun _ => none) (fun _ => none)
    builtC4 rfl).1

/-! ## Claim C7: password-protected packages -/

/-- Concrete pad fields for the `iepv` counterexample and witness. -/
def padFieldsIepv : PadFields :=
  { version := "1.25", full_name := "IE PassView",
    website := "https://www.nirsoft.net/utils/internet_explorer_password.html",
    download := "https://www.nirsoft.net/utils/iepv.zip", description := some "d" }

/-- C7 counterexample: for `iepv` (a name in the password table) the
claim requires the query-string marker on every download URL used in the
manifest, but the `autoupdate` section's download URL — the same primary
download URL — is stored without the marker, while the top-level `url`
does receive it. -/
theorem build_manifest_marker_cex :
    alookup PASSWORDS "iepv" = some "iepv68861$"
    ∧ jLookup (JVal.obj (build_manifest padFieldsIepv "iepv" "iepv.exe" "H32" false
        "https://www.nirsoft.net/utils/iepv-x64.zip" "" (alookup PASSWORDS "iepv")))
        "url" = some (JVal.str ("https://www.nirsoft.net/utils/iepv.zip" ++ dlMarker))
    ∧ jLookup (JVal.obj (build_manifest padFieldsIepv "iepv" "iepv.exe" "H32" false
        "https://www.nirsoft.net/utils/iepv-x64.zip" "" (alookup PASSWORDS "iepv")))
        "autoupdate"
      = some (JVal.obj [("url", JVal.str "https://www.nirsoft.net/utils/iepv.zip")])
    ∧ strEndsWith "https://www.nirsoft.net/utils/iepv.zip" dlMarker = false :=
  ⟨rfl, rfl, rfl, rfl⟩

/-- C7 (amended): for every program name in the password table, the
marker is appended to the manifest's installation URLs — the top-level
`url` in the single-architecture shape, both `architecture` entries'
urls in the dual shape — while the `autoupdate` section's URLs stay
unmarked, and `pre_install` is exactly the fixed ordered list: the two
create-file-if-absent steps followed by the password-referencing
extraction steps; the builder is a pure function, so rebuilding from
unchanged inputs is byte-identical. -/
theorem build_manifest_password_handling (f : PadFields) (name exe hash32 : String)
    (download64 hash64 pw : String) (hpw : alookup PASSWORDS name = some pw) :
    (jLookup (JVal.obj (build_manifest f name exe hash32 false download64 hash64 (some pw)))
        "url" = some (.str (f.download ++ dlMarker))
     ∧ jLookup (JVal.obj (build_manifest f name exe hash32 false download64 hash64 (some pw)))
        "autoupdate" = some (.obj [("url", .str f.download)])
     ∧ jLookup (JVal.obj (build_manifest f name exe hash32 false download64 hash64 (some pw)))
        "pre_install" = some (.arr [.str (preCfgStep name), .str (preLngStep name),
          .str (zipStep name), .str (extractStep pw)]))
    ∧ (jLookup (JVal.obj (build_manifest f name exe hash32 true download64 hash64 (some pw)))
        "architecture" = some (.obj
          [ ("64bit", .obj [("url", .str (download64 ++ dlMarker)), ("hash", .str hash64)])
          , ("32bit", .obj [("url", .str (f.download ++ dlMarker)), ("hash", .str hash32)]) ])
     ∧ jLookup (JVal.obj (build_manifest f name exe hash32 true download64 hash64 (some pw)))
        "autoupdate" = some (.obj [("architecture", .obj
          [ ("64bit", .obj [("url", .str download64)])
          , ("32bit", .obj [("url", .str f.download)]) ])])
     ∧ jLookup (JVal.obj (build_manifest f name exe hash32 true download64 hash64 (some pw)))
        "pre_install" = some (.arr [.str (preCfgStep name), .str (preLngStep name),
          .str (zipStep name), .str (extractStep pw)])) := by
  refine ⟨⟨rfl, rfl, rfl⟩, ⟨rfl, rfl, rfl⟩⟩

/-- C7 witness: the amended property instantiated at `iepv`. -/
theorem build_manifest_password_handling_witness :
    alookup PASSWORDS "iepv" = some "iepv68861$"
    ∧ jLookup (JVal.obj (build_manifest padFieldsIepv "iepv" "iepv.exe" "H32" false
        "https://www.nirsoft.net/utils/iepv-x64.zip" "" (some "iepv68861$")))
        "pre_install"
      = some (JVal.arr [JVal.str (preCfgStep "iepv"), JVal.str (preLngStep "iepv"),
          JVal.str (zipStep "iepv"), JVal.str (extractStep "iepv68861$")]) :=
  ⟨rfl, (build_manifest_password_handling padFieldsIepv "iepv" "iepv.exe" "H32"
    "https://www.nirsoft.net/utils/iepv-x64.zip" "" "iepv68861$" rfl).1.2.2⟩

/-! ## Claim C2: never silently drop a known 64-bit architecture -/

/-- C2: when the existing on-disk manifest records a 64-bit architecture
URL and the freshness check of the derived 64-bit URL fails this run
(404 or any other non-success), `do_padfile` performs no manifest write:
the store is untouched, nothing is passed to the writer, and the skip
diagnostic is logged. -/
theorem do_padfile_preserves_known_64bit (env : NetEnv) (c404 : Bool) (pad_name : String)
    (doc : PadDoc) (urls : Urls) (fs : FS) (mOld : JVal) (txt : String)
    (hfs : fs (padJsonFile pad_name) = some (mOld, txt))
    (hurl : manifestUrl64 mOld ≠ "")
    (h1 : (padR1 env c404 doc urls).ok = true)
    (hexe : (padR1 env c404 doc urls).row.exe ≠ "")
    (h2 : (padR2 env c404 doc urls).ok = false) :
    (do_padfile env c404 pad_name doc urls fs).fs = fs
    ∧ (do_padfile env c404 pad_name doc urls fs).wrote = false
    ∧ (do_padfile env c404 pad_name doc urls fs).built = none
    ∧ skipMsg (padJsonFile pad_name) (manifestUrl64 mOld) (padDownload64 doc)
        ∈ (do_padfile env c404 pad_name doc urls fs).log := by
  simp only [do_padfile, hfs]
  rw [if_neg (by simp [h1]), if_neg hexe, if_pos ⟨h2, hurl⟩]
  exact ⟨rfl, rfl, rfl, by simp⟩

/-- Concrete environment for the C2 witness: the primary URL answers 200
with a zip containing an executable, the 64-bit variant answers 404. -/
def envC2 : NetEnv :=
  { headStatus := fun u => if u = "https://www.nirsoft.net/utils/t-x64.zip" then 404 else 200,
    mtime := fun _ => 1, body := fun _ => [2],
    parseZip := fun _ => some ["t.exe"], sha256hex := fun _ => "H" }

/-- Concrete pad document for the C2 witness. -/
def docC2 : PadDoc :=
  { program_version := some (some "1.0"), program_name := some (some "T"),
    application_info_url := some (some "https://www.nirsoft.net/utils/t.html"),
    primary_download_url := some (some "https://www.nirsoft.net/utils/t.zip"),
    char_desc_80 := some (some "t") }

/-- The previously written manifest for the C2 witness: it records a
64-bit architecture URL. -/
def mOldC2 : JVal :=
  JVal.obj [("architecture", JVal.obj [("64bit", JVal.obj
    [("url", JVal.str "https://www.nirsoft.net/utils/t-x64.zip"),
     ("hash", JVal.str "OLD64")])])]

/-- The on-disk manifest store for the C2 witness. -/
def fsC2 : FS :=
  fun q => if q = "bucket/t.json" then some (mOldC2, "OLDTEXT") else none

/-- C2 witness: with the 64-bit probe failing, the run leaves the store
byte-identical and performs no write. -/
theorem do_padfile_preserves_known_64bit_witness :
    (do_padfile envC2 false "t.xml" docC2 (fun _ => none) fsC2).fs = fsC2
    ∧ (do_padfile envC2 false "t.xml" docC2 (fun _ => none) fsC2).wrote = false
    ∧ (do_padfile envC2 false "t.xml" docC2 (fun _ => none) fsC2).built = none := by
  have h := do_padfile_preserves_known_64bit envC2 false "t.xml" docC2 (fun _ => none) fsC2
    mOldC2 "OLDTEXT" rfl (by decide) rfl (by decide) rfl
  exact ⟨h.1, h.2.1, h.2.2.1⟩

/-! ## Claim C9: failed primary check still updates the cached row -/

/-- C9: because the row dict aliases the entry stored in `urls`, a failed
primary check (with a probe actually issued) leaves the just-observed
`url` and `status` visible in the cache after `do_padfile`'s early
"don't update urls on temporary 404s" return, while `last_modified`,
`hash` and `exe` keep their prior values; no manifest write happens. -/
theorem do_padfile_failed_check_cache_state (env : NetEnv) (c404 : Bool) (pad_name : String)
    (doc : PadDoc) (urls : Urls) (fs : FS) (e : UrlEntry)
    (he : urls (padDownload doc) = some e)
    (hns : ¬(e.status = some 404 ∧ c404 = false))
    (hfail : (padR1 env c404 doc urls).ok = false) :
    (do_padfile env c404 pad_name doc urls fs).urls (padDownload doc)
      = some { url := padDownload doc,
               status := some (env.headStatus (padDownload doc)),
               last_modified := e.last_modified, hash := e.hash, exe := e.exe }
    ∧ (do_padfile env c404 pad_name doc urls fs).fs = fs
    ∧ (do_padfile env c404 pad_name doc urls fs).wrote = false := by
  have hd : (urls (padDownload doc)).getD emptyEntry = e := by rw [he]; rfl
  cases hstv : reqOk (env.headStatus (padDownload doc)) with
  | true =>
    exfalso
    unfold padR1 at hfail
    rw [hd] at hfail
    by_cases hlt : e.last_modified.getD 0 < env.mtime (padDownload doc)
    · rw [update_row_refetch env c404 e (padDownload doc) true hns hstv hlt] at hfail
      cases hfail
    · rw [update_row_fresh env c404 e (padDownload doc) true hns hstv hlt] at hfail
      cases hfail
  | false =>
    have hr1 : padR1 env c404 doc urls =
        { ok := false,
          row := { url := padDownload doc,
                   status := some (env.headStatus (padDownload doc)),
                   last_modified := e.last_modified, hash := e.hash, exe := e.exe },
          probes := [padDownload doc], fetches := [],
          log := if env.headStatus (padDownload doc) ≠ 404 ∨ true = true
                 then [cannotMsg (padDownload doc) (env.headStatus (padDownload doc))]
                 else [] } := by
      unfold padR1
      rw [hd]
      exact update_row_probe_fail env c404 e (padDownload doc) true hns hstv
    simp only [do_padfile, hr1]
    exact ⟨by simp [updUrls], rfl, rfl⟩

/-- Concrete environment for the C9 witness: the probe answers 503. -/
def envC9 : NetEnv :=
  { headStatus := fun _ => 503, mtime := fun _ => 0, body := fun _ => [],
    parseZip := fun _ => none, sha256hex := fun _ => "" }

/-- Concrete pad document for the C9 witness. -/
def docC9 : PadDoc :=
  { program_version := some (some "2.0"), program_name := some (some "U"),
    application_info_url := some (some "https://www.nirsoft.net/utils/u.html"),
    primary_download_url := some (some "https://www.nirsoft.net/utils/u.zip"),
    char_desc_80 := some (some "u") }

/-- The pre-existing cache entry for the C9 witness. -/
def eC9 : UrlEntry :=
  { url := "https://www.nirsoft.net/utils/u.zip", status := some 200,
    last_modified := some 10, hash := "OLDH", exe := "u.exe" }

/-- The shared cache for the C9 witness, holding `eC9`. -/
def urlsC9 : Urls :=
  fun q => if q = "https://www.nirsoft.net/utils/u.zip" then some eC9 else none

/-- C9 witness: after the 503, the cache shows the new status while
`last_modified`/`hash`/`exe` are untouched, and nothing was written. -/
theorem do_padfile_failed_check_cache_state_witness :
    (do_padfile envC9 false "u.xml" docC9 urlsC9 (fun _ => none)).urls
        "https://www.nirsoft.net/utils/u.zip"
      = some { url := "https://www.nirsoft.net/utils/u.zip", status := some 503,
               last_modified := some 10, hash := "OLDH", exe := "u.exe" }
    ∧ (do_padfile envC9 false "u.xml" docC9 urlsC9 (fun _ => none)).wrote = false := by
  have h := do_padfile_failed_check_cache_state envC9 false "u.xml" docC9 urlsC9
    (fun _ => none) eC9 rfl (by decide) rfl
  exact ⟨h.1, h.2.2⟩

/-! ## Claim C10: every probed URL persists in the table -/

/-- `update_row` probes nothing (sticky skip) or exactly its URL. -/
theorem update_row_probes_sub (env : NetEnv) (c404 : Bool) (row : UrlEntry)
    (url : String) (rep : Bool) :
    (update_row env c404 row url rep).probes = []
    ∨ (update_row env c404 row url rep).probes = [url] := by
  simp only [update_row]
  split
  · exact Or.inl rfl
  · split
    · exact Or.inr rfl
    · split
      · exact Or.inr rfl
      · exact Or.inr rfl

/-- Assigning a key makes it present. -/
theorem updUrls_self (m : Urls) (k : String) (v : UrlEntry) :
    updUrls m k v k = some v := by
  simp [updUrls]

/-- Assigning a key keeps every present key present. -/
theorem updUrls_mono (m : Urls) (k : String) (v : UrlEntry) (q : String)
    (h : (m q).isSome = true) : ((updUrls m k v) q).isSome = true := by
  by_cases hq : q = k
  · simp [updUrls, hq]
  · simpa [updUrls, hq] using h

/-- One `do_padfile` call: every URL it probed has an entry in the
returned mapping, and no existing entry is deleted. -/
theorem do_padfile_urls_accumulate (env : NetEnv) (c404 : Bool) (pad_name : String)
    (doc : PadDoc) (urls : Urls) (fs : FS) :
    (∀ u ∈ (do_padfile env c404 pad_name doc urls fs).probes,
      ((do_padfile env c404 pad_name doc urls fs).urls u).isSome = true)
    ∧ (∀ k, (urls k).isSome = true →
      ((do_padfile env c404 pad_name doc urls fs).urls k).isSome = true) := by
  have hp1 : (padR1 env c404 doc urls).probes = []
      ∨ (padR1 env c404 doc urls).probes = [padDownload doc] :=
    update_row_probes_sub env c404 ((urls (padDownload doc)).getD emptyEntry)
      (padDownload doc) true
  have hp2 : (padR2 env c404 doc urls).probes = []
      ∨ (padR2 env c404 doc urls).probes = [padDownload64 doc] :=
    update_row_probes_sub env c404
      ((updUrls urls (padDownload doc) (padR1 env c404 doc urls).row
        (padDownload64 doc)).getD emptyEntry)
      (padDownload64 doc) false
  have step1 : ∀ u ∈ (padR1 env c404 doc urls).probes, u = padDownload doc := by
    intro u hu
    rcases hp1 with h | h
    · rw [h] at hu; cases hu
    · rw [h] at hu
      simpa using hu
  have step2 : ∀ u ∈ (padR2 env c404 doc urls).probes, u = padDownload64 doc := by
    intro u hu
    rcases hp2 with h | h
    · rw [h] at hu; cases hu
    · rw [h] at hu
      simpa using hu
  simp only [do_padfile]
  split
  · constructor
    · intro u hu
      obtain rfl := step1 u hu
      simp [updUrls_self]
    · intro k hk
      exact updUrls_mono urls (padDownload doc) (padR1 env c404 doc urls).row k hk
  · split
    · constructor
      · intro u hu
        obtain rfl := step1 u hu
        simp [updUrls_self]
      · intro k hk
        exact updUrls_mono urls (padDownload doc) (padR1 env c404 doc urls).row k hk
    · split
      · split
        · constructor
          · intro u hu
            rcases List.mem_append.mp hu with h | h
            · obtain rfl := step1 u h
              apply updUrls_mono
              simp [updUrls_self]
            · obtain rfl := step2 u h
              simp [updUrls_self]
          · intro k hk
            apply updUrls_mono
            exact updUrls_mono urls (padDownload doc) (padR1 env c404 doc urls).row k hk
        · constructor
          · intro u hu
            rcases List.mem_append.mp hu with h | h
            · obtain rfl := step1 u h
              apply updUrls_mono
              simp [updUrls_self]
            · obtain rfl := step2 u h
              simp [updUrls_self]
          · intro k hk
            apply updUrls_mono
            exact updUrls_mono urls (padDownload doc) (padR1 env c404 doc urls).row k hk
      · constructor
        · intro u hu
          rcases List.mem_append.mp hu with h | h
          · obtain rfl := step1 u h
            apply updUrls_mono
            simp [updUrls_self]
          · obtain rfl := step2 u h
            simp [updUrls_self]
        · intro k hk
          apply updUrls_mono
          exact updUrls_mono urls (padDownload doc) (padR1 env c404 doc urls).row k hk

/-- C10: every URL probed during a run has an entry in the `urls`
mapping when `do_padfile` returns — including URLs whose check failed —
and the mapping that `main` writes back at the end of the run (the fold
of `do_padfile` over all pads) contains every URL probed anywhere in the
run and never loses an entry it started with. -/
theorem urls_table_accumulates (env : NetEnv) (c404 : Bool) (pad_name : String)
    (doc : PadDoc) (urls : Urls) (fs : FS) (pads : List (String × PadDoc)) :
    (∀ u ∈ (do_padfile env c404 pad_name doc urls fs).probes,
      ((do_padfile env c404 pad_name doc urls fs).urls u).isSome = true)
    ∧ (∀ k, (urls k).isSome = true →
      ((do_padfile env c404 pad_name doc urls fs).urls k).isSome = true)
    ∧ (∀ u ∈ (run_pads env c404 pads urls fs).2.2,
      ((run_pads env c404 pads urls fs).1 u).isSome = true)
    ∧ (∀ k, (urls k).isSome = true →
      ((run_pads env c404 pads urls fs).1 k).isSome = true) := by
  refine ⟨(do_padfile_urls_accumulate env c404 pad_name doc urls fs).1,
    (do_padfile_urls_accumulate env c404 pad_name doc urls fs).2, ?_⟩
  induction pads generalizing urls fs with
  | nil =>
    constructor
    · intro u hu
      cases hu
    · intro k hk
      exact hk
  | cons p rest ih =>
    obtain ⟨pn, pdoc⟩ := p
    have hd := do_padfile_urls_accumulate env c404 pn pdoc urls fs
    have hr := ih (do_padfile env c404 pn pdoc urls fs).urls
      (do_padfile env c404 pn pdoc urls fs).fs
    constructor
    · intro u hu
      simp only [run_pads] at hu ⊢
      rcases List.mem_append.mp hu with h | h
      · exact hr.2 u (hd.1 u h)
      · exact hr.1 u h
    · intro k hk
      simp only [run_pads]
      exact hr.2 k (hd.2 k hk)

/-- Concrete environment for the C10 witness: the primary check fails
with 500, yet the probed URL ends up in the table. -/
def envC10 : NetEnv :=
  { headStatus := fun _ => 500, mtime := fun _ => 0, body := fun _ => [],
    parseZip := fun _ => none, sha256hex := fun _ => "" }

/-- Concrete pad document for the C10 witness. -/
def docC10 : PadDoc :=
  { program_version := some (some "1.0"), program_name := some (some "W"),
    application_info_url := some (some "https://www.nirsoft.net/utils/w.html"),
    primary_download_url := some (some "https://www.nirsoft.net/utils/w.zip"),
    char_desc_80 := some (some "w") }

/-- C10 witness: the URL probed by a failing check is present in the
mapping after `do_padfile` and in the run-final table. -/
theorem urls_table_accumulates_witness :
    ((do_padfile envC10 false "w.xml" docC10 (fun _ => none) (fun _ => none)).urls
      "https://www.nirsoft.net/utils/w.zip").isSome = true
    ∧ ((run_pads envC10 false [("w.xml", docC10)] (fun _ => none) (fun _ => none)).1
      "https://www.nirsoft.net/utils/w.zip").isSome = true := by
  have h := urls_table_accumulates envC10 false "w.xml" docC10 (fun _ => none)
    (fun _ => none) [("w.xml", docC10)]
  exact ⟨h.1 "https://www.nirsoft.net/utils/w.zip" (by decide),
    h.2.2.1 "https://www.nirsoft.net/utils/w.zip" (by decide)⟩
